import Mathlib

/-!
Verification of the FORZEO Response Analysis & Metrics Aggregation Engine.

The repository ships the engine's TypeScript type declarations
(frontend/types.ts), the metric documentation embedded in SETUP.md, the
SQL schema, and the generate-content edge function
(backend/generate-content/index.ts).  The generate-content validation and
HTTP status logic is embedded directly from that source file.  The scoring
and aggregation engine itself (the geo-audit function and the
useClientDashboard hook) is not part of the available sources, so those
components are modelled from the specification, as marked on each
definition.
-/

set_option maxRecDepth 4000

/-- Lowercase every character of a string, character by character (the
engine only ever lowercases ASCII brand names and response text). -/
def lowerStr (s : String) : String := ⟨s.data.map Char.toLower⟩

/-- Number of positions of `s` at which the pattern `pat` occurs (all
occurrences, overlapping ones included, one per starting position). -/
def countOccsFrom (pat : List Char) : List Char → Nat
  | [] => 0
  | c :: rest => (if pat.isPrefixOf (c :: rest) then 1 else 0) + countOccsFrom pat rest

/-- Split a character list on a separator character; the result always has
one more block than there are separators. -/
def splitOnCharAux (sep : Char) : List Char → List Char → List (List Char)
  | [], cur => [cur.reverse]
  | c :: cs, cur =>
      if c = sep then cur.reverse :: splitOnCharAux sep cs []
      else splitOnCharAux sep cs (c :: cur)

/-- Split a string into its lines at newline characters. -/
def splitLines (s : String) : List String :=
  (splitOnCharAux (Char.ofNat 10) s.data []).map (fun cs => ⟨cs⟩)

/-- Substring test: does `pat` occur anywhere in `s`? -/
def containsSub (s pat : List Char) : Bool :=
  decide (0 < countOccsFrom pat s)

-- ============================================================
-- generate-content edge function (embedded from
-- src/backend/generate-content/index.ts)
-- ============================================================

/-- Request body of the generate-content endpoint, from the
GenerateContentRequest interface in src/backend/generate-content/index.ts.
Optional JSON fields are `Option`; the `type` field is kept as a raw string
because the JSON body may carry any string. -/
structure GenerateContentRequest where
  prompt : Option String
  systemPrompt : Option String
  type : Option String
  brand_name : Option String
  competitors : Option (List String)
  target_keywords : Option (List String)
deriving DecidableEq

/-- Valid content types, from the validTypes array inside validateRequest. -/
def validTypes : List String :=
  ["article", "listicle", "comparison", "guide", "faq", "prompts", "content_brief"]

/-- Embedding of validateRequest from src/backend/generate-content/index.ts
lines 89-101.  JavaScript truthiness: a missing prompt and the empty-string
prompt are both falsy and hit the first check; a missing `type` and the
empty-string `type` are both falsy and skip the membership check. -/
def validateRequest (body : GenerateContentRequest) : Option String :=
  if body.prompt.getD "" = "" ∨ (body.prompt.getD "").length < 10 then
    some "prompt is required and must be at least 10 characters"
  else if 2000 < (body.prompt.getD "").length then
    some "prompt must be less than 2000 characters"
  else if body.type.getD "" ≠ "" ∧ body.type.getD "" ∉ validTypes then
    some "type must be one of: article, listicle, comparison, guide, faq, prompts, content_brief"
  else
    none

/-- Outcome of the callGroq helper: either generated content or an error
string (missing key, non-OK response, or exception). -/
inductive GroqOutcome where
  | success (content : String)
  | failure (err : String)
deriving DecidableEq

/-- Abstraction of an incoming HTTP request as the serve handler sees it:
the method, the parsed JSON body (`none` when req.json() throws), and the
outcome of the downstream Groq call. -/
structure HandlerInput where
  method : String
  body : Option GenerateContentRequest
  groq : GroqOutcome
deriving DecidableEq

/-- Embedding of the HTTP status selection of the serve handler in
src/backend/generate-content/index.ts lines 302-395: 204 for OPTIONS
preflight, 405 for non-POST, 500 for a body that fails to parse (the catch
block), 400 when validateRequest returns an error, 500 when the Groq call
reports an error, and 200 otherwise. -/
def handlerStatus (inp : HandlerInput) : Nat :=
  if inp.method = "OPTIONS" then 204
  else if inp.method ≠ "POST" then 405
  else
    match inp.body with
    | none => 500
    | some b =>
      match validateRequest b with
      | some _ => 400
      | none =>
        match inp.groq with
        | GroqOutcome.failure _ => 500
        | GroqOutcome.success _ => 200

-- ============================================================
-- Engine data model (spec section 3; field layout follows the
-- ModelResult and related interfaces in frontend/types.ts)
-- ============================================================

/-- Sentiment classification of the text around brand mentions. -/
inductive Sentiment where
  | positive
  | neutral
  | negative
deriving DecidableEq

/-- Authority tier of a model result (spec section 4.6). -/
inductive AuthorityType where
  | authority
  | alternative
  | mentioned
deriving DecidableEq

/-- Brand being tracked: name, optional domain for citation detection, and
alternate tags, per the BrandIdentity description of spec section 3. -/
structure BrandIdentity where
  name : String
  domain : Option String
  tags : List String
deriving DecidableEq

/-- Raw citation attached to a model response; the URL may be missing, in
which case the entry is dropped (spec section 7, case b). -/
structure RawCitation where
  url : Option String
  title : Option String
  snippet : Option String
  position : Option Nat
deriving DecidableEq

/-- Raw free-text response from one model, per spec section 3. -/
structure RawModelResponse where
  model_id : String
  text : String
  citations_raw : List RawCitation
  response_time_ms : Option Nat
  api_cost : ℚ
  success : Bool
  error : Option String
deriving DecidableEq

/-- Citation after extraction and normalization, per the Citation interface
of frontend/types.ts. -/
structure Citation where
  url : String
  title : String
  domain : String
  position : Option Nat
  snippet : Option String
  is_brand_source : Bool
deriving DecidableEq

/-- Per-competitor mention data, per the CompetitorMention interface of
frontend/types.ts. -/
structure CompetitorMention where
  name : String
  count : Nat
  rank : Option Nat
  sentiment : Sentiment
deriving DecidableEq

/-- Result of analysing one model response, per the ModelResult interface
of frontend/types.ts (UI-only fields such as color omitted). -/
structure ModelResult where
  model : String
  success : Bool
  error : Option String
  raw_response : String
  response_length : Nat
  brand_mentioned : Bool
  brand_mention_count : Nat
  brand_rank : Option Nat
  brand_sentiment : Sentiment
  matched_terms : List String
  competitors_found : List CompetitorMention
  citations : List Citation
  citation_count : Nat
  api_cost : ℚ
  is_cited : Bool
  authority_type : Option AuthorityType
deriving DecidableEq

-- ============================================================
-- Text normalizer and mention detector
-- ============================================================

/-- Modelled from the spec: the Text Normalizer of section 4.1 (the
geo-audit source is not in the available files).  It lowercases the
response text and performs no structural change. -/
def normalizeText (s : String) : String := lowerStr s

/-- Remove later duplicates from a list, keeping first occurrences. -/
def dedupKeep : List String → List String
  | [] => []
  | s :: rest => s :: (dedupKeep rest).filter (fun t => t ≠ s)

/-- Modelled from the spec: the synonym set of section 4.2, the brand name
together with its tags, lowercased (case-insensitive matching) and
deduplicated (spec section 3, BrandIdentity). -/
def synonymsOf (b : BrandIdentity) : List String :=
  dedupKeep ((b.name :: b.tags).map lowerStr)

/-- Does the non-empty pattern occur in `chars` starting at index `i`? -/
def matchesAt (pat : List Char) (chars : List Char) (i : Nat) : Bool :=
  pat ≠ [] && pat.isPrefixOf (chars.drop i)

/-- Modelled from the spec: the Mention Detector of section 4.2 (geo-audit
source not available).  All occurrences of all synonyms over the
lowercased text, reported as (start index, synonym length) pairs in
document order.  Distinct synonyms occupy distinct spans, so the same
character span is never reported twice; per the section 4.2 edge case, a
synonym occurring inside a longer word is intentionally counted (plain
substring search). -/
def mentionOccurrences (syns : List String) (text : String) : List (Nat × Nat) :=
  let chars := (lowerStr text).data
  (List.range chars.length).flatMap (fun i =>
    syns.filterMap (fun s =>
      if matchesAt s.data chars i then some (i, s.data.length) else none))

/-- Modelled from the spec: total mention count across all synonyms
(section 4.2), the number of detected occurrences. -/
def mentionCount (syns : List String) (text : String) : Nat :=
  (mentionOccurrences syns text).length

/-- Modelled from the spec: matched_terms of section 4.2, the distinct
synonyms actually found in the text. -/
def matchedTerms (syns : List String) (text : String) : List String :=
  syns.filter (fun s => decide (0 < mentionCount [s] text))

-- ============================================================
-- Sentiment classifier (spec section 4.4)
-- ============================================================

/-- Modelled from the spec: the fixed positive keyword set of section 4.4
and the SETUP.md Sentiment documentation. -/
def positiveKeywords : List String :=
  ["best", "top", "excellent", "recommended", "trusted"]

/-- Modelled from the spec: the fixed negative keyword set of section 4.4
and the SETUP.md Sentiment documentation. -/
def negativeKeywords : List String :=
  ["avoid", "poor", "worst", "scam", "unreliable"]

/-- Symmetric window of 100 characters before and after a mention occurrence
at index `i` of length `len` (spec section 4.4). -/
def windowAround (chars : List Char) (i len : Nat) : List Char :=
  let start := i - 100
  (chars.drop start).take (i + len + 100 - start)

/-- Total number of occurrences of the keywords inside a window. -/
def keywordScore (kws : List String) (w : List Char) : Nat :=
  (kws.map (fun k => countOccsFrom k.data w)).sum

/-- Modelled from the spec: score of one window (section 4.4), negative
when negative keywords outnumber positive ones, positive when the reverse
holds, neutral on a tie. -/
def windowSentiment (w : List Char) : Sentiment :=
  let pos := keywordScore positiveKeywords w
  let neg := keywordScore negativeKeywords w
  if pos < neg then Sentiment.negative
  else if neg < pos then Sentiment.positive
  else Sentiment.neutral

/-- First non-neutral sentiment in document order, defaulting to neutral
(the aggregation policy stated in spec section 4.4). -/
def firstNonNeutral : List Sentiment → Sentiment
  | [] => Sentiment.neutral
  | s :: rest => if s = Sentiment.neutral then firstNonNeutral rest else s

/-- Modelled from the spec: the Sentiment Classifier of section 4.4
(geo-audit source not available): evaluate the window around every mention
occurrence in document order and take the first non-neutral result. -/
def sentimentOf (syns : List String) (text : String) : Sentiment :=
  let chars := (lowerStr text).data
  firstNonNeutral ((mentionOccurrences syns text).map
    (fun p => windowSentiment (windowAround chars p.1 p.2)))

-- ============================================================
-- Rank extractor (spec section 4.3)
-- ============================================================

/-- Leading decoration accepted before a list marker: whitespace and
markdown bullet characters (spec section 4.3). -/
def bulletChars : List Char := [' ', Char.ofNat 9, '-', '*', '+']

/-- Split off the leading run of decimal digits. -/
def takeDigits : List Char → List Char × List Char
  | [] => ([], [])
  | c :: cs =>
      if c.isDigit then
        let p := takeDigits cs
        (c :: p.1, p.2)
      else ([], c :: cs)

/-- Numeric value of a digit run. -/
def digitsVal (ds : List Char) : Nat :=
  ds.foldl (fun n c => 10 * n + (c.toNat - 48)) 0

/-- Does some non-empty synonym start right here (after optional spaces)? -/
def synHere (syns : List String) (cs : List Char) : Bool :=
  syns.any (fun s => s.data ≠ [] && s.data.isPrefixOf (cs.dropWhile (fun c => c = ' ')))

/-- Modelled from the spec: per-line marker parsing of the Rank Extractor
(section 4.3, geo-audit source not available).  After optional leading
whitespace and markdown bullets, the line must carry one of the patterns
int-dot-Name, int-parenthesis-Name, or hash-int-Name, with the name drawn
from the lowercased synonym set; the captured integer is returned.  The
line is lowercased for the name comparison only, digits and markers being
unaffected. -/
def lineRank (syns : List String) (line : String) : Option Nat :=
  let cs := (lowerStr line).data.dropWhile (fun c => c ∈ bulletChars)
  match cs with
  | '#' :: rest =>
      let p := takeDigits rest
      if p.1 ≠ [] && synHere syns p.2 then some (digitsVal p.1) else none
  | _ =>
      let p := takeDigits cs
      match p.1, p.2 with
      | [], _ => none
      | _, [] => none
      | _, m :: r2 =>
          if (m = '.' || m = ')') && synHere syns r2 then some (digitsVal p.1)
          else none

/-- First line, in document order, that yields a rank. -/
def firstRank (syns : List String) : List String → Option Nat
  | [] => none
  | l :: ls =>
      match lineRank syns l with
      | some k => some k
      | none => firstRank syns ls

/-- Modelled from the spec: the Rank Extractor of section 4.3 (geo-audit
source not available).  The raw, non-normalized text is scanned line by
line; the first matching line determines the rank and later matches never
override it. -/
def extractRank (syns : List String) (text : String) : Option Nat :=
  firstRank syns (splitLines text)

-- ============================================================
-- Citation extractor and deduplicator (spec section 4.5)
-- ============================================================

/-- Split off the scheme at the first occurrence of colon-slash-slash,
returning the scheme characters and the remainder, or nothing when the
separator is absent. -/
def splitSchemeAux : List Char → Option (List Char × List Char)
  | [] => none
  | c :: cs =>
      if c = ':' && "//".data.isPrefixOf cs then some ([], cs.drop 2)
      else
        match splitSchemeAux cs with
        | some p => some (c :: p.1, p.2)
        | none => none

/-- Strip one trailing slash from a string (spec section 4.5). -/
def stripTrailingSlash (s : String) : String :=
  if s.data.getLast? = some '/' then ⟨s.data.dropLast⟩ else s

/-- Split the part after the scheme into host and path at the first slash. -/
def splitHostPath (rest : List Char) : List Char × List Char :=
  (rest.takeWhile (fun c => c ≠ '/'), rest.dropWhile (fun c => c ≠ '/'))

/-- Drop the default port from a lowercased host: port 80 for http and
port 443 for https (spec section 4.5). -/
def dropDefaultPort (scheme host : List Char) : List Char :=
  if scheme = "http".data && ":80".data.isSuffixOf host then
    host.take (host.length - 3)
  else if scheme = "https".data && ":443".data.isSuffixOf host then
    host.take (host.length - 4)
  else host

/-- Modelled from the spec: URL normalization of section 4.5 (geo-audit
source not available): strip the trailing slash, force the host to
lowercase, and drop default ports.  Nothing else is altered; in particular
the path keeps its case. -/
def normalizeUrl (u : String) : String :=
  match splitSchemeAux u.data with
  | some p =>
      let hp := splitHostPath p.2
      let host := dropDefaultPort (p.1.map Char.toLower) (hp.1.map Char.toLower)
      stripTrailingSlash ⟨p.1 ++ "://".data ++ host ++ hp.2⟩
  | none => stripTrailingSlash u

/-- Modelled from the spec: lowercased host of a URL, without its port. -/
def hostOf (u : String) : List Char :=
  match splitSchemeAux u.data with
  | some p => ((splitHostPath p.2).1.map Char.toLower).takeWhile (fun c => c ≠ ':')
  | none => []

/-- Modelled from the spec: the domain of a URL (section 4.5), the
lowercased host without port and without a leading www. -/
def domainOf (u : String) : String :=
  let h := hostOf u
  ⟨if "www.".data.isPrefixOf h then h.drop 4 else h⟩

/-- Modelled from the spec: brand-source detection of section 4.5: the
domain matches the brand's declared domain, or the URL host contains the
brand name. -/
def isBrandSource (b : BrandIdentity) (u : String) : Bool :=
  (match b.domain with
   | some bd => domainOf u = lowerStr bd
   | none => false)
  || containsSub (hostOf u) (lowerStr b.name).data

/-- Deduplicate citations by their (already normalized) URL, keeping first
occurrences; `seen` accumulates the URLs already kept. -/
def dedupByUrlAux (seen : List String) : List Citation → List Citation
  | [] => []
  | c :: rest =>
      if c.url ∈ seen then dedupByUrlAux seen rest
      else c :: dedupByUrlAux (c.url :: seen) rest

/-- Modelled from the spec: per-result deduplication of section 4.5, keyed
by the normalized URL. -/
def dedupByUrl (cs : List Citation) : List Citation := dedupByUrlAux [] cs

/-- Modelled from the spec: the Citation Extractor of section 4.5 (geo-audit
source not available).  Entries without a URL are dropped (spec section 7,
case b); each remaining URL is normalized, its domain derived, the brand
source flag computed, and the list deduplicated by normalized URL. -/
def extractCitations (b : BrandIdentity) (raws : List RawCitation) : List Citation :=
  dedupByUrl (raws.filterMap (fun rc =>
    match rc.url with
    | none => none
    | some u =>
        some { url := normalizeUrl u
               title := rc.title.getD ""
               domain := domainOf u
               position := rc.position
               snippet := rc.snippet
               is_brand_source := isBrandSource b u }))

-- ============================================================
-- Authority classifier and per-result scorer (spec 4.6, 4.7)
-- ============================================================

/-- Modelled from the spec: the Authority Classifier of section 4.6
(geo-audit source not available).  The undefined-at-zero case is checked
first, as forced by the section 3 invariant (mention_count of zero implies
an undefined authority_type) and the section 8 property list; a brand that
is cited but never mentioned therefore stays unclassified. -/
def classifyAuthority (is_cited : Bool) (cnt : Nat) : Option AuthorityType :=
  if cnt = 0 then none
  else if is_cited then
    if 3 ≤ cnt then some AuthorityType.authority else some AuthorityType.alternative
  else some AuthorityType.mentioned

/-- Modelled from the spec: competitor scoring (sections 4.2-4.4 applied to
a CompetitorIdentity, which has no tags or domain).  No rank is computed
for an unmentioned competitor (spec section 3 invariant). -/
def scoreCompetitor (name : String) (text : String) : CompetitorMention :=
  let syns := [lowerStr name]
  let cnt := mentionCount syns text
  { name := name
    count := cnt
    rank := if cnt = 0 then none else extractRank syns text
    sentiment := sentimentOf syns text }

/-- Modelled from the spec: the zeroed ModelResult of section 4.7 returned
on a failed or empty response, all detection fields at their zero or
absent state with the error propagated. -/
def zeroedResult (raw : RawModelResponse) : ModelResult :=
  { model := raw.model_id
    success := raw.success
    error := raw.error
    raw_response := raw.text
    response_length := raw.text.length
    brand_mentioned := false
    brand_mention_count := 0
    brand_rank := none
    brand_sentiment := Sentiment.neutral
    matched_terms := []
    competitors_found := []
    citations := []
    citation_count := 0
    api_cost := raw.api_cost
    is_cited := false
    authority_type := none }

/-- Modelled from the spec: the Per-Result Scorer of section 4.7 (geo-audit
source not available), the pure function from a raw response, the brand,
and the competitor names to a ModelResult.  A failed or empty response
yields the zeroed result; otherwise the detectors of sections 4.2-4.6 are
combined.  No rank is computed when the brand is never mentioned (section
3 invariant). -/
def scoreResult (raw : RawModelResponse) (brand : BrandIdentity)
    (comps : List String) : ModelResult :=
  if raw.success = false ∨ raw.text = "" then zeroedResult raw
  else
    let syns := synonymsOf brand
    let cnt := mentionCount syns raw.text
    let cits := extractCitations brand raw.citations_raw
    let cited := cits.any (fun c => c.is_brand_source)
    { model := raw.model_id
      success := raw.success
      error := raw.error
      raw_response := raw.text
      response_length := raw.text.length
      brand_mentioned := decide (0 < cnt)
      brand_mention_count := cnt
      brand_rank := if cnt = 0 then none else extractRank syns raw.text
      brand_sentiment := sentimentOf syns raw.text
      matched_terms := matchedTerms syns raw.text
      competitors_found := comps.map (fun c => scoreCompetitor c raw.text)
      citations := cits
      citation_count := cits.length
      api_cost := raw.api_cost
      is_cited := cited
      authority_type := classifyAuthority cited cnt }

-- ============================================================
-- Cross-model aggregator (spec section 4.8)
-- ============================================================

/-- Summary of one prompt run across all queried models, per the
AuditSummary interface of frontend/types.ts. -/
structure AuditSummary where
  share_of_voice : ℤ
  visibility_score : ℚ
  trust_index : ℚ
  average_rank : Option ℚ
  total_models_checked : Nat
  visible_in : Nat
  cited_in : Nat
  total_citations : Nat
  total_cost : ℚ
deriving DecidableEq

/-- Number of results satisfying a Boolean predicate. -/
def countP (p : ModelResult → Bool) (rs : List ModelResult) : Nat :=
  (rs.filter p).length

/-- Modelled from the spec: the per-model visibility score of section 4.8
and the SETUP.md Visibility Score documentation: base 100 when cited, else
50 when mentioned, else 0; rank bonus of 30, 20, or 10 for ranks 1, 2, 3;
plus 5 per mention capped at 20. -/
def modelVisibility (r : ModelResult) : Nat :=
  (if r.is_cited then 100 else if r.brand_mentioned then 50 else 0) +
  (match r.brand_rank with
   | some 1 => 30
   | some 2 => 20
   | some 3 => 10
   | _ => 0) +
  min (r.brand_mention_count * 5) 20

/-- Modelled from the spec: the Cross-Model Aggregator of section 4.8
(geo-audit source not available).  Rates are expressed on the 0-to-1 scale
(section 4.8 leaves the scale free as long as it is uniform); 0.6 and 0.4
are the exact rationals 3/5 and 2/5.  An empty result list yields the
degenerate values of spec section 7, case c, never a division by zero. -/
def aggregateResults (rs : List ModelResult) : AuditSummary :=
  let t := rs.length
  let visible := countP (fun r => r.brand_mentioned) rs
  let cited := countP (fun r => r.is_cited) rs
  let auth := countP (fun r => decide (r.authority_type = some AuthorityType.authority)) rs
  let ranks := rs.filterMap (fun r => r.brand_rank)
  { share_of_voice := if t = 0 then 0 else round ((100 * visible : ℚ) / t)
    visibility_score := if t = 0 then 0 else ((rs.map modelVisibility).sum : ℚ) / t
    trust_index :=
      if t = 0 then 0
      else ((cited : ℚ) / t) * (3 / 5) + ((auth : ℚ) / t) * (2 / 5)
    average_rank :=
      if ranks.length = 0 then none
      else some (((ranks.map (fun k => (k : ℚ))).sum) / ranks.length)
    total_models_checked := t
    visible_in := visible
    cited_in := cited
    total_citations := (rs.map (fun r => r.citation_count)).sum
    total_cost := (rs.map (fun r => r.api_cost)).sum }

-- ============================================================
-- Cross-result citation aggregation (spec section 4.5, CitationSummary)
-- ============================================================

/-- Cross-result citation aggregate, per the CitationSummary interface of
frontend/types.ts (categories kept as plain strings). -/
structure CitationSummary where
  url : String
  title : String
  domain : String
  count : Nat
  prompts : List String
  models : List String
  categories : List String
deriving DecidableEq

/-- One citation occurrence to fold into the cross-result aggregate: the
prompt, model, and category it came from, plus the citation itself. -/
structure CitationInput where
  promptText : String
  modelId : String
  category : String
  citation : Citation
deriving DecidableEq

/-- Modelled from the spec: merging one more occurrence into an existing
CitationSummary entry (section 4.5): the count is incremented, the prompt
recorded once per distinct prompt, models and categories appended in
insertion order. -/
def addToSummary (s : CitationSummary) (it : CitationInput) : CitationSummary :=
  { s with
    count := s.count + 1
    prompts := if it.promptText ∈ s.prompts then s.prompts else s.prompts ++ [it.promptText]
    models := s.models ++ [it.modelId]
    categories := s.categories ++ [it.category] }

/-- Modelled from the spec: folding one citation occurrence into the
aggregate (section 4.5), keyed by the citation's normalized URL: merge
into the existing entry when the URL is present, otherwise append a fresh
entry with count 1. -/
def insertCitation (acc : List CitationSummary) (it : CitationInput) : List CitationSummary :=
  if acc.any (fun s => s.url = it.citation.url) then
    acc.map (fun s => if s.url = it.citation.url then addToSummary s it else s)
  else
    acc ++ [{ url := it.citation.url
              title := it.citation.title
              domain := it.citation.domain
              count := 1
              prompts := [it.promptText]
              models := [it.modelId]
              categories := [it.category] }]

/-- Modelled from the spec: the cross-result CitationSummary aggregation of
section 4.5, a fold over all citation occurrences of a client. -/
def buildCitationSummaries (items : List CitationInput) : List CitationSummary :=
  items.foldl insertCitation []

/-- Modelled from the spec: the citation occurrences contributed by the
scored results of one prompt, in result order. -/
def citationInputsOf (b : BrandIdentity) (promptText category : String)
    (raws : List RawModelResponse) : List CitationInput :=
  raws.flatMap (fun raw =>
    ((scoreResult raw b []).citations).map (fun c =>
      { promptText := promptText, modelId := raw.model_id,
        category := category, citation := c }))

-- ============================================================
-- C10: request validation and HTTP status
-- ============================================================

/-- Characterization of acceptance by validateRequest: the prompt must be
present with length between 10 and 2000, and the type, when present and
non-empty, must be one of the valid types.  The empty-string type is falsy
in JavaScript and skips the membership check. -/
theorem validateRequest_eq_none_iff (body : GenerateContentRequest) :
    validateRequest body = none ↔
      ((∃ p, body.prompt = some p ∧ 10 ≤ p.length ∧ p.length ≤ 2000) ∧
       (∀ t, body.type = some t → t ≠ "" → t ∈ validTypes)) := by
  unfold validateRequest
  rcases hp : body.prompt with _ | p
  · simp [hp]
  · rcases ht : body.type with _ | t
    · simp [hp, ht]
      split_ifs with h1 h2
      · simp only [false_iff, not_and]
        intro hl
        rcases h1 with rfl | h1
        · rw [show ("" : String).length = 0 from rfl] at hl; omega
        · omega
      · simp only [false_iff, not_and]
        intro _; omega
      · push_neg at h1
        simp only [true_iff]
        exact ⟨by omega, by omega⟩
    · simp [hp, ht]
      split_ifs with h1 h2 h3
      · simp only [false_iff, not_and]
        intro hl
        rcases h1 with rfl | h1
        · rw [show ("" : String).length = 0 from rfl] at hl; omega
        · omega
      · simp only [false_iff, not_and]
        intro _; omega
      · push_neg at h1
        simp only [false_iff, not_and]
        intro _ hmem
        exact h3.2 (hmem h3.1)
      · push_neg at h1
        simp only [true_iff]
        refine ⟨⟨by omega, by omega⟩, ?_⟩
        intro hne
        by_contra hmem
        exact h3 ⟨hne, hmem⟩

/-- Characterization of the 400 response: the handler answers 400 exactly
on a POST request whose body parsed and was rejected by validateRequest. -/
theorem handlerStatus_eq_400_iff (inp : HandlerInput) :
    handlerStatus inp = 400 ↔
      inp.method = "POST" ∧ ∃ b, inp.body = some b ∧ validateRequest b ≠ none := by
  unfold handlerStatus
  split_ifs with h1 h2
  · constructor
    · intro h; omega
    · rintro ⟨hpost, _⟩
      rw [hpost] at h1
      exact absurd h1 (by decide)
  · constructor
    · intro h; omega
    · rintro ⟨hpost, _⟩; exact absurd hpost h2
  · push_neg at h2
    rcases hb : inp.body with _ | b
    · simp [hb]
    · rcases hv : validateRequest b with _ | e
      · rcases hg : inp.groq with c | e2 <;> simp [hb, hv, hg, h2]
      · simp [hb, hv, h2]

/-- Request body that exposes the JavaScript falsiness gap: the type field
is present but holds the empty string. -/
def emptyTypeBody : GenerateContentRequest :=
  { prompt := some "0123456789"
    systemPrompt := none
    type := some ""
    brand_name := none
    competitors := none
    target_keywords := none }

/-- C10 counterexample: a body whose type field is present but empty is
accepted by validateRequest even though the empty string is not one of the
seven valid types, because the truthiness guard skips the membership
check.  This falsifies the claimed equivalence as stated. -/
theorem validateRequest_empty_type_accepted :
    validateRequest emptyTypeBody = none ∧
    emptyTypeBody.type = some "" ∧ "" ∉ validTypes := by decide

/-- C10 (amended): validateRequest accepts exactly when the prompt is
present with length at least 10 and at most 2000 and the type, when
present and non-empty, is one of article, listicle, comparison, guide,
faq, prompts, content_brief; and the HTTP handler responds 400 exactly
when the method is POST, the body parses, and validateRequest returns a
non-null error string. -/
theorem validateRequest_accepts_iff_and_handler_400
    (body : GenerateContentRequest) (inp : HandlerInput) :
    (validateRequest body = none ↔
      ((∃ p, body.prompt = some p ∧ 10 ≤ p.length ∧ p.length ≤ 2000) ∧
       (∀ t, body.type = some t → t ≠ "" → t ∈ validTypes))) ∧
    (handlerStatus inp = 400 ↔
      inp.method = "POST" ∧ ∃ b, inp.body = some b ∧ validateRequest b ≠ none) :=
  ⟨validateRequest_eq_none_iff body, handlerStatus_eq_400_iff inp⟩

/-- Well-formed request body used by the C10 witness. -/
def okBody : GenerateContentRequest :=
  { prompt := some "best dating apps in India"
    systemPrompt := none
    type := some "article"
    brand_name := none
    competitors := none
    target_keywords := none }

/-- Malformed request body used by the C10 witness (prompt too short). -/
def shortBody : GenerateContentRequest :=
  { prompt := some "short"
    systemPrompt := none
    type := none
    brand_name := none
    competitors := none
    target_keywords := none }

/-- C10 witness: the characterization applied at concrete requests: the
well-formed body is accepted, and a POST carrying the too-short prompt is
answered 400. -/
theorem validateRequest_accepts_iff_and_handler_400_witness :
    validateRequest okBody = none ∧
    handlerStatus { method := "POST", body := some shortBody,
                    groq := GroqOutcome.success "ok" } = 400 := by
  have h := validateRequest_accepts_iff_and_handler_400 okBody
    { method := "POST", body := some shortBody, groq := GroqOutcome.success "ok" }
  refine ⟨h.1.mpr ⟨⟨"best dating apps in India", rfl, by decide, by decide⟩, ?_⟩,
          h.2.mpr ⟨rfl, shortBody, rfl, by decide⟩⟩
  intro t ht hne
  rw [show okBody.type = some "article" from rfl] at ht
  cases ht
  decide

-- ============================================================
-- Concrete fixtures used by the claim theorems and witnesses
-- ============================================================

/-- Brand fixture: the pilot brand of the repository documentation. -/
def juleoBrand : BrandIdentity :=
  { name := "Juleo", domain := some "juleo.club", tags := [] }

/-- Response that cites the brand domain without mentioning the brand name
in the text. -/
def citedRaw : RawModelResponse :=
  { model_id := "claude", text := "some text without the brand name",
    citations_raw := [{ url := some "https://juleo.club/about",
                        title := some "About", snippet := none, position := none }],
    response_time_ms := none, api_cost := 0, success := true, error := none }

/-- Response that cites the brand domain and mentions the brand three
times. -/
def authorityRaw : RawModelResponse :=
  { model_id := "chatgpt", text := "Juleo, juleo and JULEO",
    citations_raw := [{ url := some "https://juleo.club/",
                        title := none, snippet := none, position := none }],
    response_time_ms := none, api_cost := 0, success := true, error := none }

/-- ModelResult fixture with the detection fields under test; the remaining
fields are fixed neutral values. -/
def mkResult (mentioned : Bool) (cnt : Nat) (rank : Option Nat) (cited : Bool)
    (auth : Option AuthorityType) : ModelResult :=
  { model := "m", success := true, error := none, raw_response := "r",
    response_length := 1, brand_mentioned := mentioned, brand_mention_count := cnt,
    brand_rank := rank, brand_sentiment := Sentiment.neutral, matched_terms := [],
    competitors_found := [], citations := [], citation_count := 0, api_cost := 0,
    is_cited := cited, authority_type := auth }

/-- Four models, brand mentioned in two of them (spec section 8, SOV
scenario). -/
def sovEx : List ModelResult :=
  [mkResult true 1 none false none, mkResult true 2 none false none,
   mkResult false 0 none false none, mkResult false 0 none false none]

/-- Four models: one authority, one alternative, two uncited (spec section
8, trust index scenario). -/
def trustEx : List ModelResult :=
  [mkResult true 3 none true (some AuthorityType.authority),
   mkResult true 1 none true (some AuthorityType.alternative),
   mkResult false 0 none false none, mkResult false 0 none false none]

/-- Four models with mixed citation, rank, and mention states, for the
visibility mean. -/
def visEx : List ModelResult :=
  [mkResult true 4 (some 1) true none, mkResult true 1 (some 2) false none,
   mkResult false 0 none false none, mkResult true 2 none false none]

-- ============================================================
-- C1: zero-mention invariant of the Per-Result Scorer
-- ============================================================

/-- C1: every ModelResult produced by the Per-Result Scorer satisfies the
section 3 invariant: zero brand mentions force brand_mentioned false, a
null rank, an undefined authority type, and neutral sentiment; and a cited
result carries at least one citation. -/
theorem scoreResult_zero_mention_invariant (raw : RawModelResponse)
    (brand : BrandIdentity) (comps : List String) :
    ((scoreResult raw brand comps).brand_mention_count = 0 →
      (scoreResult raw brand comps).brand_mentioned = false ∧
      (scoreResult raw brand comps).brand_rank = none ∧
      (scoreResult raw brand comps).authority_type = none ∧
      (scoreResult raw brand comps).brand_sentiment = Sentiment.neutral) ∧
    ((scoreResult raw brand comps).is_cited = true →
      1 ≤ (scoreResult raw brand comps).citation_count) := by
  unfold scoreResult
  split_ifs with hz
  · simp [zeroedResult]
  · simp only []
    constructor
    · intro h0
      have hocc : mentionOccurrences (synonymsOf brand) raw.text = [] := by
        have hlen := h0
        simp only [mentionCount] at hlen
        exact List.length_eq_zero.mp hlen
      refine ⟨?_, ?_, ?_, ?_⟩
      · simp [mentionCount, hocc]
      · simp [h0]
      · simp [h0, classifyAuthority]
      · simp [sentimentOf, hocc, firstNonNeutral]
    · intro hc
      rcases List.any_eq_true.mp hc with ⟨c, hmem, _⟩
      exact List.length_pos.mpr (List.ne_nil_of_mem hmem)

/-- C1 witness: the invariant applied to a concrete response whose text
never mentions the brand while its citation list carries the brand domain:
the sentiment is neutral and the citation count is positive. -/
theorem scoreResult_zero_mention_invariant_witness :
    (scoreResult citedRaw juleoBrand []).brand_sentiment = Sentiment.neutral ∧
    1 ≤ (scoreResult citedRaw juleoBrand []).citation_count := by
  have h := scoreResult_zero_mention_invariant citedRaw juleoBrand []
  exact ⟨(h.1 (by decide)).2.2.2, h.2 (by decide)⟩

-- ============================================================
-- C2, C3, C4: aggregate metric formulas
-- ============================================================

/-- C2: for a non-empty result list, share_of_voice is the rounded
percentage of results that mention the brand; in the four-model scenario
with two mentions it equals 50. -/
theorem share_of_voice_round_formula :
    (∀ rs : List ModelResult, rs ≠ [] →
      (aggregateResults rs).share_of_voice =
        round ((100 * (countP (fun r => r.brand_mentioned) rs) : ℚ) / rs.length)) ∧
    (aggregateResults sovEx).total_models_checked = 4 ∧
    (aggregateResults sovEx).visible_in = 2 ∧
    (aggregateResults sovEx).share_of_voice = 50 := by
  refine ⟨?_, by decide, by decide, ?_⟩
  · intro rs h
    simp only [aggregateResults]
    rw [if_neg (fun hc => h (List.length_eq_zero.mp hc))]
  · simp [aggregateResults, sovEx, countP, mkResult]
    norm_num [round_eq]

/-- C2 witness: the rounding formula applied to the concrete four-model
scenario after discharging the non-emptiness hypothesis. -/
theorem share_of_voice_round_formula_witness :
    (aggregateResults sovEx).share_of_voice =
      round ((100 * (countP (fun r => r.brand_mentioned) sovEx) : ℚ) / sovEx.length) :=
  share_of_voice_round_formula.1 sovEx (by decide)

/-- C3: for a non-empty result list, trust_index blends the citation rate
(weight 0.6, the exact rational 3/5) with the authority rate (weight 0.4,
the exact rational 2/5), both on the 0-to-1 scale; in the four-model
scenario with two cited results, one of them an authority, it equals 0.4. -/
theorem trust_index_blend_formula :
    (∀ rs : List ModelResult, rs ≠ [] →
      (aggregateResults rs).trust_index =
        ((countP (fun r => r.is_cited) rs : ℚ) / rs.length) * (3 / 5) +
        ((countP (fun r => decide (r.authority_type = some AuthorityType.authority)) rs : ℚ)
            / rs.length) * (2 / 5)) ∧
    (aggregateResults trustEx).cited_in = 2 ∧
    (aggregateResults trustEx).trust_index = 2 / 5 := by
  refine ⟨?_, by decide, ?_⟩
  · intro rs h
    simp only [aggregateResults]
    rw [if_neg (fun hc => h (List.length_eq_zero.mp hc))]
  · simp [aggregateResults, trustEx, countP, mkResult]
    norm_num

/-- C3 witness: the blend formula applied to the concrete four-model
scenario after discharging the non-emptiness hypothesis. -/
theorem trust_index_blend_formula_witness :
    (aggregateResults trustEx).trust_index =
      ((countP (fun r => r.is_cited) trustEx : ℚ) / trustEx.length) * (3 / 5) +
      ((countP (fun r => decide (r.authority_type = some AuthorityType.authority)) trustEx : ℚ)
          / trustEx.length) * (2 / 5) :=
  trust_index_blend_formula.1 trustEx (by decide)

/-- C4: the per-model visibility score is the cited/mentioned base plus the
rank bonus plus five points per mention capped at twenty, and the
prompt-level visibility score of a non-empty result list is the mean of
the per-model scores. -/
theorem visibility_score_formula :
    (∀ r : ModelResult, modelVisibility r =
      (if r.is_cited then 100 else if r.brand_mentioned then 50 else 0) +
      (if r.brand_rank = some 1 then 30
       else if r.brand_rank = some 2 then 20
       else if r.brand_rank = some 3 then 10 else 0) +
      min (r.brand_mention_count * 5) 20) ∧
    (∀ rs : List ModelResult, rs ≠ [] →
      (aggregateResults rs).visibility_score =
        ((rs.map modelVisibility).sum : ℚ) / rs.length) ∧
    (visEx.map modelVisibility) = [150, 75, 0, 60] ∧
    (aggregateResults visEx).visibility_score = 285 / 4 := by
  refine ⟨?_, ?_, by decide, ?_⟩
  · intro r
    rcases hr : r.brand_rank with _ | k
    · simp [modelVisibility, hr]
    · rcases k with _ | _ | _ | _ | k <;> simp [modelVisibility, hr]
  · intro rs h
    simp only [aggregateResults]
    rw [if_neg (fun hc => h (List.length_eq_zero.mp hc))]
  · simp [aggregateResults, visEx, countP, mkResult, modelVisibility]

/-- C4 witness: the mean property applied to the concrete four-model list
after discharging the non-emptiness hypothesis. -/
theorem visibility_score_formula_witness :
    (aggregateResults visEx).visibility_score =
      ((visEx.map modelVisibility).sum : ℚ) / visEx.length :=
  visibility_score_formula.2.1 visEx (by decide)

-- ============================================================
-- C5: authority classification
-- ============================================================

/-- Case analysis of the authority classifier; the zero-mention case takes
precedence over the cited cases, per the section 3 invariant. -/
theorem classifyAuthority_cases (c : Bool) (n : Nat) :
    (c = true → 3 ≤ n → classifyAuthority c n = some AuthorityType.authority) ∧
    (c = true → n < 3 → n ≠ 0 → classifyAuthority c n = some AuthorityType.alternative) ∧
    (c = false → 1 ≤ n → classifyAuthority c n = some AuthorityType.mentioned) ∧
    (n = 0 → classifyAuthority c n = none) := by
  unfold classifyAuthority
  split_ifs with h1 h2 h3 <;> refine ⟨?_, ?_, ?_, ?_⟩ <;> intros <;> simp_all
  omega

/-- C5 counterexample: a response whose citation list carries the brand
domain while the text never mentions the brand is cited with a mention
count below three, yet its authority_type is not alternative (it is
undefined, as the section 3 invariant requires).  This falsifies the
claim's alternative clause as stated, which asked only for is_cited and
a mention count below three. -/
theorem authority_cited_unmentioned_unclassified :
    (scoreResult citedRaw juleoBrand []).is_cited = true ∧
    (scoreResult citedRaw juleoBrand []).brand_mention_count < 3 ∧
    (scoreResult citedRaw juleoBrand []).authority_type ≠ some AuthorityType.alternative := by
  decide

/-- C5 (amended): the Per-Result Scorer classifies authority when cited
with at least three mentions, alternative when cited with fewer than three
but at least one mention, mentioned when uncited with at least one
mention, and leaves the authority type undefined at zero mentions. -/
theorem authority_classification (raw : RawModelResponse) (brand : BrandIdentity)
    (comps : List String) :
    ((scoreResult raw brand comps).is_cited = true →
      3 ≤ (scoreResult raw brand comps).brand_mention_count →
      (scoreResult raw brand comps).authority_type = some AuthorityType.authority) ∧
    ((scoreResult raw brand comps).is_cited = true →
      (scoreResult raw brand comps).brand_mention_count < 3 →
      (scoreResult raw brand comps).brand_mention_count ≠ 0 →
      (scoreResult raw brand comps).authority_type = some AuthorityType.alternative) ∧
    ((scoreResult raw brand comps).is_cited = false →
      1 ≤ (scoreResult raw brand comps).brand_mention_count →
      (scoreResult raw brand comps).authority_type = some AuthorityType.mentioned) ∧
    ((scoreResult raw brand comps).brand_mention_count = 0 →
      (scoreResult raw brand comps).authority_type = none) := by
  unfold scoreResult
  split_ifs with hz
  · simp [zeroedResult]
  · simp only []
    exact classifyAuthority_cases _ _

/-- C5 witness: the classification applied to a concrete response that
cites the brand domain and mentions the brand three times, discharging the
cited and mention-count hypotheses. -/
theorem authority_classification_witness :
    (scoreResult authorityRaw juleoBrand []).authority_type = some AuthorityType.authority := by
  have h := authority_classification authorityRaw juleoBrand []
  exact h.1 (by decide) (by decide)

-- ============================================================
-- C8: empty aggregation
-- ============================================================

/-- C8: aggregating an empty result list yields share_of_voice 0, a null
average rank, and trust_index 0; every branch that would divide by the
model count is guarded by the zero test, so no division by zero is ever
performed. -/
theorem aggregate_empty_results :
    (aggregateResults []).share_of_voice = 0 ∧
    (aggregateResults []).average_rank = none ∧
    (aggregateResults []).trust_index = 0 := by
  refine ⟨?_, ?_, ?_⟩ <;> simp [aggregateResults]

-- ============================================================
-- C9: determinism
-- ============================================================

/-- C9: the engine is deterministic: the Per-Result Scorer and the
Cross-Model Aggregator are pure functions, so two runs on identical inputs
return identical outputs. -/
theorem engine_deterministic (raw raw2 : RawModelResponse) (b b2 : BrandIdentity)
    (cs cs2 : List String) (rs rs2 : List ModelResult)
    (h1 : raw = raw2) (h2 : b = b2) (h3 : cs = cs2) (h4 : rs = rs2) :
    scoreResult raw b cs = scoreResult raw2 b2 cs2 ∧
    aggregateResults rs = aggregateResults rs2 := by
  subst h1; subst h2; subst h3; subst h4
  exact ⟨rfl, rfl⟩

/-- C9 witness: determinism applied at concrete inputs, the equality
hypotheses discharged by reflexivity. -/
theorem engine_deterministic_witness :
    scoreResult citedRaw juleoBrand [] = scoreResult citedRaw juleoBrand [] ∧
    aggregateResults sovEx = aggregateResults sovEx :=
  engine_deterministic citedRaw citedRaw juleoBrand juleoBrand [] [] sovEx sovEx
    rfl rfl rfl rfl

-- ============================================================
-- C6: rank extraction
-- ============================================================

/-- Response fixture for rank extraction: an enumerated list ranking the
brand first and the competitor second. -/
def rankRaw : RawModelResponse :=
  { model_id := "chatgpt", text := "1. Juleo\n2. Bumble", citations_raw := [],
    response_time_ms := none, api_cost := 0, success := true, error := none }

/-- Response fixture whose text mentions the brand without any enumerated
list marker. -/
def noListRaw : RawModelResponse :=
  { model_id := "gemini", text := "People like Juleo apps", citations_raw := [],
    response_time_ms := none, api_cost := 0, success := true, error := none }

/-- C6: the Rank Extractor takes the integer captured on the first line, in
document order, whose list marker immediately precedes a recognized
synonym; lines past the first match never override it, a text whose lines
all fail to match yields a null rank even when the brand appears in it,
and on the two-line example the brand ranks first and the competitor
second. -/
theorem rank_extractor_first_match :
    (∀ (syns : List String) (pre : List String) (l : String) (post : List String) (k : Nat),
      (∀ m ∈ pre, lineRank syns m = none) → lineRank syns l = some k →
      firstRank syns (pre ++ l :: post) = some k) ∧
    (∀ (syns : List String) (lines : List String),
      (∀ m ∈ lines, lineRank syns m = none) → firstRank syns lines = none) ∧
    extractRank ["juleo"] "1. Juleo\n2. Bumble" = some 1 ∧
    extractRank ["bumble"] "1. Juleo\n2. Bumble" = some 2 ∧
    (scoreResult rankRaw juleoBrand ["Bumble"]).brand_rank = some 1 ∧
    ((scoreResult rankRaw juleoBrand ["Bumble"]).competitors_found.map
      (fun c => c.rank)) = [some 2] ∧
    (scoreResult noListRaw juleoBrand []).brand_mentioned = true ∧
    (scoreResult noListRaw juleoBrand []).brand_rank = none := by
  refine ⟨?_, ?_, by decide, by decide, by decide, by decide, by decide, by decide⟩
  · intro syns pre l post k hpre hl
    induction pre with
    | nil => simp [firstRank, hl]
    | cons a rest ih =>
      have ha : lineRank syns a = none := hpre a (List.mem_cons_self a rest)
      simp only [List.cons_append, firstRank, ha]
      exact ih (fun m hm => hpre m (List.mem_cons_of_mem a hm))
  · intro syns lines hall
    induction lines with
    | nil => rfl
    | cons a rest ih =>
      have ha : lineRank syns a = none := hall a (List.mem_cons_self a rest)
      simp only [firstRank, ha]
      exact ih (fun m hm => hall m (List.mem_cons_of_mem a hm))

/-- C6 witness: the first-match property applied to a concrete two-line
document whose first line carries no marker, discharging both hypotheses. -/
theorem rank_extractor_first_match_witness :
    firstRank ["juleo"] (["an intro line"] ++ "1. juleo" :: []) = some 1 :=
  rank_extractor_first_match.1 ["juleo"] ["an intro line"] "1. juleo" [] 1
    (by decide) (by decide)

-- ============================================================
-- C7: citation deduplication and cross-result merging
-- ============================================================

/-- Per-result deduplication keeps URLs outside the seen set and pairwise
distinct. -/
theorem dedupByUrlAux_nodup (cs : List Citation) : ∀ seen : List String,
    (∀ c ∈ dedupByUrlAux seen cs, c.url ∉ seen) ∧
    ((dedupByUrlAux seen cs).map (fun c => c.url)).Nodup := by
  induction cs with
  | nil => intro seen; exact ⟨by simp [dedupByUrlAux], by simp [dedupByUrlAux]⟩
  | cons c rest ih =>
    intro seen
    by_cases h : c.url ∈ seen
    · simp only [dedupByUrlAux, if_pos h]
      exact ih seen
    · simp only [dedupByUrlAux, if_neg h]
      refine ⟨?_, ?_⟩
      · intro d hd
        rcases List.mem_cons.mp hd with rfl | hd
        · exact h
        · intro hds
          exact (ih (c.url :: seen)).1 d hd (List.mem_cons_of_mem _ hds)
      · rw [List.map_cons, List.nodup_cons]
        refine ⟨?_, (ih (c.url :: seen)).2⟩
        intro hin
        rcases List.mem_map.mp hin with ⟨d, hd, hdu⟩
        exact (ih (c.url :: seen)).1 d hd (by rw [← hdu] at *; exact List.mem_cons_self _ _)

/-- Citation lists produced by the Per-Result Scorer hold one entry per
normalized URL. -/
theorem scoreResult_citations_nodup (raw : RawModelResponse) (b : BrandIdentity)
    (comps : List String) :
    (((scoreResult raw b comps).citations).map (fun c => c.url)).Nodup := by
  unfold scoreResult
  split_ifs
  · simp [zeroedResult]
  · simp only [extractCitations, dedupByUrl]
    exact (dedupByUrlAux_nodup _ []).2

/-- Merging into the entry of a matching URL leaves the URL column of the
aggregate unchanged. -/
theorem map_url_update (acc : List CitationSummary) (it : CitationInput) :
    ((acc.map (fun s => if s.url = it.citation.url then addToSummary s it else s)).map
      (fun s => s.url)) = acc.map (fun s => s.url) := by
  induction acc with
  | nil => rfl
  | cons a rest ih =>
    simp only [List.map_cons]
    rw [ih]
    congr 1
    by_cases h : a.url = it.citation.url
    · rw [if_pos h]; rfl
    · rw [if_neg h]

/-- Inserting a citation occurrence preserves distinctness of the URLs in
the aggregate. -/
theorem insertCitation_urls_nodup (acc : List CitationSummary) (it : CitationInput)
    (h : (acc.map (fun s => s.url)).Nodup) :
    ((insertCitation acc it).map (fun s => s.url)).Nodup := by
  unfold insertCitation
  split_ifs with hany
  · rw [map_url_update]; exact h
  · rw [List.map_append]
    simp only [List.map_cons, List.map_nil]
    refine List.Nodup.append h (List.nodup_singleton _) ?_
    intro u hu hv
    rcases List.mem_map.mp hu with ⟨s, hs, rfl⟩
    have : s.url = it.citation.url := by simpa using hv
    apply absurd hany
    simp only [not_not]
    exact List.any_eq_true.mpr ⟨s, hs, by simp [this]⟩

/-- The cross-result aggregation holds one entry per normalized URL. -/
theorem buildCitationSummaries_urls_nodup (items : List CitationInput) :
    ((buildCitationSummaries items).map (fun s => s.url)).Nodup := by
  suffices h : ∀ acc : List CitationSummary, (acc.map (fun s => s.url)).Nodup →
      ((items.foldl insertCitation acc).map (fun s => s.url)).Nodup by
    exact h [] (by simp)
  induction items with
  | nil => intro acc h; simpa [List.foldl]
  | cons it rest ih =>
    intro acc h
    simp only [List.foldl]
    exact ih _ (insertCitation_urls_nodup acc it h)

/-- Total count recorded in the aggregate for one URL. -/
def urlCitationTotal (u : String) (acc : List CitationSummary) : Nat :=
  ((acc.filter (fun s => s.url = u)).map (fun s => s.count)).sum

/-- Number of input occurrences carrying one URL. -/
def urlOccurrences (u : String) (items : List CitationInput) : Nat :=
  (items.filter (fun it => it.citation.url = u)).length

/-- The empty aggregate records no count. -/
theorem urlCitationTotal_nil (u : String) : urlCitationTotal u [] = 0 := rfl

/-- Unfolding of the per-URL total over a cons. -/
theorem urlCitationTotal_cons (u : String) (a : CitationSummary) (l : List CitationSummary) :
    urlCitationTotal u (a :: l) =
      (if a.url = u then a.count else 0) + urlCitationTotal u l := by
  unfold urlCitationTotal
  by_cases h : a.url = u
  · simp [List.filter_cons, h]
  · simp [List.filter_cons, h]

/-- A URL absent from the aggregate has total zero. -/
theorem urlCitationTotal_none (u : String) (l : List CitationSummary)
    (h : ∀ s ∈ l, s.url ≠ u) : urlCitationTotal u l = 0 := by
  induction l with
  | nil => rfl
  | cons a rest ih =>
    rw [urlCitationTotal_cons, if_neg (h a (List.mem_cons_self a rest)), ih]
    intro s hs
    exact h s (List.mem_cons_of_mem a hs)

/-- Updating entries of a URL absent from the aggregate changes nothing. -/
theorem map_update_of_absent (acc : List CitationSummary) (it : CitationInput)
    (h : ∀ s ∈ acc, s.url ≠ it.citation.url) :
    acc.map (fun s => if s.url = it.citation.url then addToSummary s it else s) = acc := by
  induction acc with
  | nil => rfl
  | cons a rest ih =>
    simp only [List.map_cons]
    rw [if_neg (h a (List.mem_cons_self a rest)), ih]
    intro s hs
    exact h s (List.mem_cons_of_mem a hs)

/-- Merging an occurrence into a matching entry raises exactly the total of
its URL, by exactly one. -/
theorem urlCitationTotal_update (acc : List CitationSummary) (it : CitationInput) (u : String)
    (hnd : (acc.map (fun s => s.url)).Nodup)
    (hany : ∃ s ∈ acc, s.url = it.citation.url) :
    urlCitationTotal u
        (acc.map (fun s => if s.url = it.citation.url then addToSummary s it else s)) =
      urlCitationTotal u acc + (if it.citation.url = u then 1 else 0) := by
  induction acc with
  | nil => rcases hany with ⟨s, hs, _⟩; cases hs
  | cons a rest ih =>
    rw [List.map_cons, List.nodup_cons] at hnd
    simp only [List.map_cons]
    by_cases ha : a.url = it.citation.url
    · rw [if_pos ha]
      have hrest : ∀ s ∈ rest, s.url ≠ it.citation.url := by
        intro s hs heq
        exact hnd.1 (by rw [ha, ← heq]; exact List.mem_map_of_mem _ hs)
      rw [map_update_of_absent rest it hrest]
      rw [urlCitationTotal_cons, urlCitationTotal_cons]
      have hau : (addToSummary a it).url = a.url := rfl
      by_cases hu : a.url = u
      · rw [if_pos (by rw [hau]; exact hu), if_pos hu]
        have : it.citation.url = u := by rw [← ha]; exact hu
        rw [if_pos this]
        show a.count + 1 + urlCitationTotal u rest = a.count + urlCitationTotal u rest + 1
        omega
      · rw [if_neg (by rw [hau]; exact hu), if_neg hu]
        have : it.citation.url ≠ u := by rw [← ha]; exact hu
        rw [if_neg this]
        omega
    · rw [if_neg ha]
      have hany2 : ∃ s ∈ rest, s.url = it.citation.url := by
        rcases hany with ⟨s, hs, hsu⟩
        rcases List.mem_cons.mp hs with rfl | hs2
        · exact absurd hsu ha
        · exact ⟨s, hs2, hsu⟩
      rw [urlCitationTotal_cons, urlCitationTotal_cons, ih hnd.2 hany2]
      omega

/-- The per-URL total distributes over appended aggregates. -/
theorem urlCitationTotal_append (u : String) (l1 l2 : List CitationSummary) :
    urlCitationTotal u (l1 ++ l2) = urlCitationTotal u l1 + urlCitationTotal u l2 := by
  induction l1 with
  | nil => simp only [List.nil_append, urlCitationTotal_nil, Nat.zero_add]
  | cons a rest ih =>
    simp only [List.cons_append]
    rw [urlCitationTotal_cons, urlCitationTotal_cons, ih]
    omega

/-- One insertion raises the total of the inserted URL by one, both when it
merges and when it opens a fresh entry. -/
theorem urlCitationTotal_insert (acc : List CitationSummary) (it : CitationInput) (u : String)
    (hnd : (acc.map (fun s => s.url)).Nodup) :
    urlCitationTotal u (insertCitation acc it) =
      urlCitationTotal u acc + (if it.citation.url = u then 1 else 0) := by
  unfold insertCitation
  by_cases hany : (acc.any fun s => decide (s.url = it.citation.url)) = true
  · rw [if_pos hany]
    have hex : ∃ s ∈ acc, s.url = it.citation.url := by
      rcases List.any_eq_true.mp hany with ⟨s, hs, hp⟩
      exact ⟨s, hs, by simpa using hp⟩
    exact urlCitationTotal_update acc it u hnd hex
  · rw [if_neg hany, urlCitationTotal_append, urlCitationTotal_cons, urlCitationTotal_nil]
    by_cases hu : it.citation.url = u
    · rw [if_pos hu]
    · rw [if_neg hu]

/-- Folding the whole input list tallies, per URL, exactly the number of
its occurrences. -/
theorem urlCitationTotal_build (items : List CitationInput) :
    ∀ acc : List CitationSummary, (acc.map (fun s => s.url)).Nodup → ∀ u : String,
      urlCitationTotal u (items.foldl insertCitation acc) =
        urlCitationTotal u acc + urlOccurrences u items := by
  induction items with
  | nil =>
    intro acc _ u
    simp [List.foldl, urlOccurrences]
  | cons it rest ih =>
    intro acc hnd u
    simp only [List.foldl]
    rw [ih (insertCitation acc it) (insertCitation_urls_nodup acc it hnd) u,
        urlCitationTotal_insert acc it u hnd]
    unfold urlOccurrences
    rw [List.filter_cons]
    by_cases hu : it.citation.url = u
    · simp [hu]
      omega
    · simp [hu]

/-- In an aggregate with pairwise distinct URLs, filtering by the URL of a
member isolates exactly that member. -/
theorem filter_url_singleton (l : List CitationSummary) (s : CitationSummary)
    (hnd : (l.map (fun t => t.url)).Nodup) (hs : s ∈ l) :
    l.filter (fun t => t.url = s.url) = [s] := by
  induction l with
  | nil => cases hs
  | cons a rest ih =>
    rw [List.map_cons, List.nodup_cons] at hnd
    rcases List.mem_cons.mp hs with rfl | hmem
    · rw [List.filter_cons, if_pos (by simp)]
      have hrest : rest.filter (fun t => t.url = s.url) = [] := by
        apply List.filter_eq_nil_iff.mpr
        intro t ht
        simp only [decide_eq_true_eq]
        intro heq
        exact hnd.1 (by rw [← heq]; exact List.mem_map_of_mem _ ht)
      rw [hrest]
    · have hne : a.url ≠ s.url := by
        intro heq
        exact hnd.1 (by rw [heq]; exact List.mem_map_of_mem _ hmem)
      rw [List.filter_cons, if_neg (by simpa using hne)]
      exact ih hnd.2 hmem

/-- Every entry of the cross-result aggregate counts exactly the input
occurrences of its normalized URL. -/
theorem buildCitationSummaries_entry_count (items : List CitationInput)
    (s : CitationSummary) (hs : s ∈ buildCitationSummaries items) :
    s.count = urlOccurrences s.url items := by
  have hnd := buildCitationSummaries_urls_nodup items
  have htot := urlCitationTotal_build items [] (by simp) s.url
  unfold buildCitationSummaries at hs
  rw [urlCitationTotal_nil] at htot
  have hsingle : (items.foldl insertCitation []).filter (fun t => t.url = s.url) = [s] :=
    filter_url_singleton _ s hnd hs
  unfold urlCitationTotal at htot
  rw [hsingle] at htot
  simpa using htot

/-- Response citing the spec's first example URL, whose path segment is
capitalized. -/
def pageUpperRaw : RawModelResponse :=
  { model_id := "chatgpt", text := "x",
    citations_raw := [{ url := some "https://Example.com/Page/",
                        title := none, snippet := none, position := none }],
    response_time_ms := none, api_cost := 0, success := true, error := none }

/-- Response citing the spec's second example URL, all lowercase. -/
def pageLowerRaw : RawModelResponse :=
  { model_id := "claude", text := "x",
    citations_raw := [{ url := some "https://example.com/page",
                        title := none, snippet := none, position := none }],
    response_time_ms := none, api_cost := 0, success := true, error := none }

/-- Response citing a URL that differs from pageLowerRaw's only in host
case and trailing slash. -/
def hostUpperRaw : RawModelResponse :=
  { model_id := "chatgpt", text := "x",
    citations_raw := [{ url := some "https://Example.com/page/",
                        title := none, snippet := none, position := none }],
    response_time_ms := none, api_cost := 0, success := true, error := none }

/-- C7 counterexample: the claimed normalization lowercases only the host,
so the two example URLs keep paths of different case and normalize to
different strings; aggregating the two responses yields two
CitationSummary entries of count one each, not one entry of count two. -/
theorem citation_path_case_two_entries :
    ((buildCitationSummaries
        (citationInputsOf juleoBrand "p1" "custom" [pageUpperRaw, pageLowerRaw])).map
      (fun s => (s.url, s.count)) =
      [("https://example.com/Page", 1), ("https://example.com/page", 1)]) ∧
    normalizeUrl "https://Example.com/Page/" ≠ normalizeUrl "https://example.com/page" := by
  decide

/-- C7 (amended): citations are deduplicated by normalized URL with the
trailing slash stripped, the host lowercased, and default ports dropped,
the path case being preserved: a single result's citation list holds one
entry per normalized URL, cross-result aggregation keeps one entry per
normalized URL whose count equals the number of occurrences of that URL,
and two responses whose cited URLs differ only in host case and trailing
slash merge into exactly one entry with count two. -/
theorem citation_dedup_and_merge :
    (∀ (raw : RawModelResponse) (b : BrandIdentity) (comps : List String),
      (((scoreResult raw b comps).citations).map (fun c => c.url)).Nodup) ∧
    (∀ items : List CitationInput,
      ((buildCitationSummaries items).map (fun s => s.url)).Nodup) ∧
    (∀ (items : List CitationInput) (s : CitationSummary),
      s ∈ buildCitationSummaries items → s.count = urlOccurrences s.url items) ∧
    (buildCitationSummaries
        (citationInputsOf juleoBrand "p1" "custom" [hostUpperRaw, pageLowerRaw]) =
      [{ url := "https://example.com/page", title := "", domain := "example.com",
         count := 2, prompts := ["p1"], models := ["chatgpt", "claude"],
         categories := ["custom", "custom"] }]) := by
  refine ⟨scoreResult_citations_nodup, buildCitationSummaries_urls_nodup,
          buildCitationSummaries_entry_count, by decide⟩

/-- C7 witness: the entry-count property applied to the concrete merged
aggregate, the membership hypothesis discharged by computation. -/
theorem citation_dedup_and_merge_witness :
    ({ url := "https://example.com/page", title := "", domain := "example.com",
       count := 2, prompts := ["p1"], models := ["chatgpt", "claude"],
       categories := ["custom", "custom"] } : CitationSummary).count =
      urlOccurrences "https://example.com/page"
        (citationInputsOf juleoBrand "p1" "custom" [hostUpperRaw, pageLowerRaw]) :=
  citation_dedup_and_merge.2.2.1
    (citationInputsOf juleoBrand "p1" "custom" [hostUpperRaw, pageLowerRaw])
    { url := "https://example.com/page", title := "", domain := "example.com",
      count := 2, prompts := ["p1"], models := ["chatgpt", "claude"],
      categories := ["custom", "custom"] }
    (by decide)
